import Mathlib

/-!
Shallow embedding of the Focus & Flow program-progression and session-scheduling
engine (the `App` component of the repository's main source file), together with
proofs of the specification's claims about it.

The embedding follows the source closely:
* durations are either numbers or free-text ranges (`Dur`);
* the curriculum (`programData`) is transcribed verbatim;
* the preference adapter (`getAdjustedDuration`, `filterComplexActivities`),
  the session selector (`getRecommendedSessionType`), the activity progression
  state machine (`completeActivity`, `tick`, `skipActivity`) and the
  notification scheduler (`calculateNextNotificationTime`,
  `armNotificationTimer`, the notification effect) are translated function by
  function from the source.
JavaScript host primitives that the source leans on (`String.prototype.includes`,
`Number(..)`, `Date` arithmetic, `setTimeout` bookkeeping) are modelled by
explicit Lean functions, documented at their definitions.
-/

/-- A session or activity duration as stored in the curriculum: either a number
of minutes or a textual range such as "15-20". -/
inductive Dur where
  | num (n : Nat)
  | text (s : String)
deriving DecidableEq

/-- An activity template, mirroring the activity objects of `programData`:
`{ type, name, duration, description }`. -/
structure Activity where
  type : String
  name : String
  duration : Dur
  description : String
deriving DecidableEq

/-- A session template, mirroring the session objects of `programData`:
`{ duration, activities }`. -/
structure SessionTemplate where
  duration : Dur
  activities : List Activity
deriving DecidableEq

/-- A week of the curriculum, mirroring the week objects of `programData`.
The `sessions` association list keeps the JS object's declared key order. -/
structure Week where
  title : String
  phase : String
  phaseColor : String
  sessions : List (String × SessionTemplate)
  milestone : String
deriving DecidableEq

/-- Substring occurrence on character lists: `containsSub hay needle` is true
iff `needle` occurs contiguously in `hay`.  Models the semantics of
JavaScript's `String.prototype.includes`. -/
def containsSub (hay needle : List Char) : Bool :=
  match hay with
  | [] => needle.isEmpty
  | _ :: t => needle.isPrefixOf hay || containsSub t needle

/-- `strIncludes s sub` models the JS call `s.includes(sub)`. -/
def strIncludes (s sub : String) : Bool :=
  containsSub s.data sub.data

/-- Session modification helper `getAdjustedDuration` from the source: when
`extendedBreaks` is on, numeric durations gain 2 minutes; textual durations
(`typeof originalDuration !== 'number'`) pass through unchanged. -/
def getAdjustedDuration (extendedBreaks : Bool) (originalDuration : Dur) : Dur :=
  if extendedBreaks then
    match originalDuration with
    | .num n => .num (n + 2)
    | .text s => .text s
  else originalDuration

/-- The fixed complex-keyword list of `filterComplexActivities`. -/
def complexKeywords : List String :=
  ["exergaming", "complex movement patterns", "multi-step coordination",
   "coordination exercises"]

/-- The fixed preserve-keyword list of `filterComplexActivities`. -/
def preserveKeywords : List String :=
  ["dance", "martial arts", "open-skill"]

/-- Character-list implementation of JS `String.prototype.toLowerCase` for the
ASCII texts of the curriculum. -/
def strToLower (s : String) : String :=
  ⟨s.data.map Char.toLower⟩

/-- The lower-cased `name + description` text an activity is matched on:
the source's `` `${activity.name} ${activity.description}`.toLowerCase() ``. -/
def activityText (a : Activity) : String :=
  strToLower (a.name ++ " " ++ a.description)

/-- Whether an activity's text contains some preserve keyword. -/
def hasPreserveKeyword (a : Activity) : Bool :=
  preserveKeywords.any (fun keyword => strIncludes (activityText a) keyword)

/-- Whether an activity's text contains some complex keyword. -/
def hasComplexKeyword (a : Activity) : Bool :=
  complexKeywords.any (fun keyword => strIncludes (activityText a) keyword)

/-- `filterComplexActivities` from the source: identity unless `skipComplex`;
otherwise keep an activity if it has a preserve keyword, and drop it if it has
a complex keyword. -/
def filterComplexActivities (skipComplex : Bool) (activities : List Activity) :
    List Activity :=
  if !skipComplex then activities
  else
    activities.filter (fun activity =>
      if hasPreserveKeyword activity then true
      else !hasComplexKeyword activity)

/-- The adaptation step applied by `HomeScreen` and `SessionScreen` to the raw
session: adjust the session duration, filter the activities, and adjust each
remaining activity's duration. -/
def adaptSession (extendedBreaks skipComplex : Bool) (rawSession : SessionTemplate) :
    SessionTemplate :=
  { rawSession with
    duration := getAdjustedDuration extendedBreaks rawSession.duration,
    activities :=
      (filterComplexActivities skipComplex rawSession.activities).map
        (fun activity =>
          { activity with
            duration := getAdjustedDuration extendedBreaks activity.duration }) }

/-- C9: `getAdjustedDuration` with `extendedBreaks = true` adds 2 to every
numeric duration and leaves textual ranges unchanged; with
`extendedBreaks = false` it is the identity; in particular
`adjustDuration(20, true) = 22`, `adjustDuration(20, false) = 20` and
`adjustDuration("15-20", true) = "15-20"`. -/
theorem getAdjustedDuration_spec (n : Nat) (s : String) (d : Dur) :
    getAdjustedDuration true (.num n) = .num (n + 2) ∧
    getAdjustedDuration true (.text s) = .text s ∧
    getAdjustedDuration false d = d ∧
    getAdjustedDuration true (.num 20) = .num 22 ∧
    getAdjustedDuration false (.num 20) = .num 20 ∧
    getAdjustedDuration true (.text "15-20") = .text "15-20" :=
  ⟨rfl, rfl, rfl, rfl, rfl, rfl⟩

/-- C4: `filterComplexActivities` with `skipComplex = false` is the identity;
with `skipComplex = true` it removes exactly the activities whose lower-cased
`name + description` contains a complex keyword and no preserve keyword (a
preserve keyword keeps the activity regardless).  The spec's concrete example
pair behaves as described. -/
theorem filterComplexActivities_spec (acts : List Activity) :
    filterComplexActivities false acts = acts ∧
    filterComplexActivities true acts =
      acts.filter (fun a => !(hasComplexKeyword a && !hasPreserveKeyword a)) ∧
    filterComplexActivities true
        [⟨"movement", "Exergaming", .num 10, "Complex movement patterns"⟩] = [] ∧
    filterComplexActivities true
        [⟨"movement", "Exergaming", .num 10, "Complex movement patterns dance"⟩] =
      [⟨"movement", "Exergaming", .num 10, "Complex movement patterns dance"⟩] := by
  refine ⟨rfl, ?_, by decide, by decide⟩
  have h : filterComplexActivities true acts =
      acts.filter (fun activity =>
        if hasPreserveKeyword activity then true else !hasComplexKeyword activity) := rfl
  rw [h]
  apply List.filter_congr
  intro a _
  cases hp : hasPreserveKeyword a <;> cases hc : hasComplexKeyword a <;> simp [hp, hc]

/-! ### The curriculum (`programData`), transcribed from the source. -/

/-- Week 1 "Mon/Wed/Fri" session. -/
def week1MWF : SessionTemplate :=
  { duration := .num 15,
    activities :=
      [⟨"movement", "Dynamic movement", .num 5, "Jumping jacks, arm circles, marching"⟩,
       ⟨"mindfulness", "Brain.fm focus session", .num 5, "Low setting with breathing awareness"⟩,
       ⟨"cognitive", "Task initiation practice", .num 5, "Using the \x275-minute rule\x27"⟩] }

/-- Week 1 "Tue/Thu" session. -/
def week1TT : SessionTemplate :=
  { duration := .num 10,
    activities :=
      [⟨"movement", "Walking meditation", .num 5, "Outdoors if possible"⟩,
       ⟨"cognitive", "Daily tracking setup", .num 5, "Reflection and planning"⟩] }

/-- Week 2 "Mon/Wed/Fri" session. -/
def week2MWF : SessionTemplate :=
  { duration := .num 18,
    activities :=
      [⟨"movement", "Moderate cardio", .num 7, "Brisk walk, cycling, dancing"⟩,
       ⟨"mindfulness", "Brain.fm with body scan", .num 6, "Medium setting"⟩,
       ⟨"cognitive", "Distractibility Delay Technique", .num 5, "Practice focus skills"⟩] }

/-- Week 2 "Tue/Thu/Sat" session. -/
def week2TTS : SessionTemplate :=
  { duration := .num 15,
    activities :=
      [⟨"movement", "Open-skill activity", .num 10, "Dance tutorial, shadow boxing"⟩,
       ⟨"cognitive", "STOP technique", .num 5, "Impulse control practice"⟩] }

/-- Week 3 "Mon/Wed/Fri" session. -/
def week3MWF : SessionTemplate :=
  { duration := .num 20,
    activities :=
      [⟨"movement", "HIIT workout", .num 8, "30 seconds work, 15 seconds rest"⟩,
       ⟨"mindfulness", "Brain.fm medium setting", .num 7, "With mindful breathing"⟩,
       ⟨"cognitive", "Time awareness exercises", .num 5, "Pomodoro introduction"⟩] }

/-- Week 3 "Tue/Thu" session. -/
def week3TT : SessionTemplate :=
  { duration := .num 20,
    activities :=
      [⟨"movement", "Complex movement", .num 10, "Yoga flow or martial arts forms"⟩,
       ⟨"mindfulness", "Walking meditation", .num 5, "Mindful steps"⟩,
       ⟨"cognitive", "Evening routine planning", .num 5, "Structure preparation"⟩] }

/-- Week 4 "Daily" session. -/
def week4Daily : SessionTemplate :=
  { duration := .text "15-20",
    activities :=
      [⟨"review", "Review & Practice", .text "15-20",
        "Practice favorite combinations from weeks 1-3"⟩] }

/-- Week 5 "Mon/Wed/Fri" session. -/
def week5MWF : SessionTemplate :=
  { duration := .num 20,
    activities :=
      [⟨"movement", "Open-skill exercise", .num 10, "Tennis against wall, dance routine"⟩,
       ⟨"mindfulness", "Brain.fm with active mindfulness", .num 6, "Higher engagement"⟩,
       ⟨"cognitive", "Cognitive restructuring", .num 4, "Thought pattern work"⟩] }

/-- Week 5 "Tue/Thu" session. -/
def week5TT : SessionTemplate :=
  { duration := .num 20,
    activities :=
      [⟨"movement", "Strength training circuit", .num 8, "Bodyweight exercises"⟩,
       ⟨"mindfulness", "Progressive muscle relaxation", .num 7, "Full body tension release"⟩,
       ⟨"cognitive", "Work productivity planning", .num 5, "Email/meeting strategies"⟩] }

/-- Week 6 "Mon/Wed/Fri/Sat" session. -/
def week6MWFS : SessionTemplate :=
  { duration := .num 20,
    activities :=
      [⟨"movement", "Exergaming", .num 10, "Complex movement patterns"⟩,
       ⟨"mindfulness", "Brain.fm high setting", .num 5, "With focus challenge"⟩,
       ⟨"cognitive", "Financial management", .num 5, "Impulse control check-in"⟩] }

/-- Week 6 "Tue/Thu" session. -/
def week6TT : SessionTemplate :=
  { duration := .num 20,
    activities :=
      [⟨"movement", "Interval training", .num 12, "With cognitive tasks between sets"⟩,
       ⟨"mindfulness", "Mindful movement", .num 8, "Movement meditation"⟩] }

/-- Week 7 "High Energy Days" session. -/
def week7High : SessionTemplate :=
  { duration := .num 20,
    activities :=
      [⟨"movement", "High-intensity open-skill", .num 12, "Complex movement patterns"⟩,
       ⟨"mindfulness", "Quick mindfulness reset", .num 5, "Focused breathing"⟩,
       ⟨"cognitive", "CBT skill application", .num 3, "Real-world practice"⟩] }

/-- Week 7 "Low Energy Days" session. -/
def week7Low : SessionTemplate :=
  { duration := .num 20,
    activities :=
      [⟨"movement", "Gentle movement", .num 8, "Stretching and mobility"⟩,
       ⟨"mindfulness", "Extended Brain.fm focus", .num 8, "Deep concentration"⟩,
       ⟨"cognitive", "Organization system", .num 4, "Refine daily systems"⟩] }

/-- Week 8 "Custom Design" session. -/
def week8Custom : SessionTemplate :=
  { duration := .num 20,
    activities :=
      [⟨"review", "Design your session", .num 20,
        "Use all three modalities based on your preferences"⟩] }

/-- Week 9 "Self-Designed" session. -/
def week9Self : SessionTemplate :=
  { duration := .num 20,
    activities :=
      [⟨"movement", "Physical activity (40%)", .num 8, "Your choice of movement"⟩,
       ⟨"mindfulness", "Mindfulness/Brain.fm (30%)", .num 6, "Focus practice"⟩,
       ⟨"cognitive", "CBT/Life skills (30%)", .num 6, "Practical application"⟩] }

/-- Week 10 "Morning" session. -/
def week10Morning : SessionTemplate :=
  { duration := .num 20,
    activities :=
      [⟨"movement", "Energy activation", .num 20, "Morning routine for optimal day start"⟩] }

/-- Week 10 "Afternoon" session. -/
def week10Afternoon : SessionTemplate :=
  { duration := .num 20,
    activities :=
      [⟨"cognitive", "Productivity protocols", .num 20, "Workday enhancement strategies"⟩] }

/-- Week 10 "Evening" session. -/
def week10Evening : SessionTemplate :=
  { duration := .num 20,
    activities :=
      [⟨"mindfulness", "Wind-down sequence", .num 20, "Prepare for restful sleep"⟩] }

/-- Week 11 "Teaching Practice" session. -/
def week11Teaching : SessionTemplate :=
  { duration := .num 20,
    activities :=
      [⟨"review", "Teach one technique", .num 20, "Share your knowledge with someone else"⟩] }

/-- Week 12 "Celebration" session. -/
def week12Celebration : SessionTemplate :=
  { duration := .num 20,
    activities :=
      [⟨"review", "Favorite routines", .num 20, "Practice what works best for you"⟩] }

/-- Week 1 of `programData`. -/
def week1 : Week :=
  { title := "Activation & Awareness", phase := "Foundation", phaseColor := "bg-blue-500",
    sessions := [("Mon/Wed/Fri", week1MWF), ("Tue/Thu", week1TT)],
    milestone := "Complete 3 sessions without skipping" }

/-- Week 2 of `programData`. -/
def week2 : Week :=
  { title := "Building Momentum", phase := "Foundation", phaseColor := "bg-blue-500",
    sessions := [("Mon/Wed/Fri", week2MWF), ("Tue/Thu/Sat", week2TTS)],
    milestone := "Track focus improvements using 1-10 scale" }

/-- Week 3 of `programData`. -/
def week3 : Week :=
  { title := "Establishing Rhythms", phase := "Foundation", phaseColor := "bg-blue-500",
    sessions := [("Mon/Wed/Fri", week3MWF), ("Tue/Thu", week3TT)],
    milestone := "Successfully use Pomodoro for one work task" }

/-- Week 4 of `programData`. -/
def week4 : Week :=
  { title := "Foundation Consolidation", phase := "Foundation", phaseColor := "bg-blue-500",
    sessions := [("Daily", week4Daily)],
    milestone := "Identify optimal exercise type and mindfulness approach" }

/-- Week 5 of `programData`. -/
def week5 : Week :=
  { title := "Multimodal Magic", phase := "Integration", phaseColor := "bg-purple-500",
    sessions := [("Mon/Wed/Fri", week5MWF), ("Tue/Thu", week5TT)],
    milestone := "Complete one full workday using new strategies" }

/-- Week 6 of `programData`. -/
def week6 : Week :=
  { title := "Cognitive-Physical Fusion", phase := "Integration", phaseColor := "bg-purple-500",
    sessions := [("Mon/Wed/Fri/Sat", week6MWFS), ("Tue/Thu", week6TT)],
    milestone := "Navigate one challenging situation using STOP technique" }

/-- Week 7 of `programData`. -/
def week7 : Week :=
  { title := "Advanced Integration", phase := "Integration", phaseColor := "bg-purple-500",
    sessions := [("High Energy Days", week7High), ("Low Energy Days", week7Low)],
    milestone := "Successfully adapt program to energy levels" }

/-- Week 8 of `programData`. -/
def week8 : Week :=
  { title := "Integration Mastery", phase := "Integration", phaseColor := "bg-purple-500",
    sessions := [("Custom Design", week8Custom)],
    milestone := "Create personalized routine combinations" }

/-- Week 9 of `programData`. -/
def week9 : Week :=
  { title := "Autonomous Practice", phase := "Mastery", phaseColor := "bg-green-500",
    sessions := [("Self-Designed", week9Self)],
    milestone := "Complete week without external reminders" }

/-- Week 10 of `programData`. -/
def week10 : Week :=
  { title := "Life Integration", phase := "Mastery", phaseColor := "bg-green-500",
    sessions := [("Morning", week10Morning), ("Afternoon", week10Afternoon),
                 ("Evening", week10Evening)],
    milestone := "Report improved functioning in target area" }

/-- Week 11 of `programData`. -/
def week11 : Week :=
  { title := "Teaching & Refinement", phase := "Mastery", phaseColor := "bg-green-500",
    sessions := [("Teaching Practice", week11Teaching)],
    milestone := "Successfully explain program benefits to others" }

/-- Week 12 of `programData`. -/
def week12 : Week :=
  { title := "Graduation & Beyond", phase := "Mastery", phaseColor := "bg-green-500",
    sessions := [("Celebration", week12Celebration)],
    milestone := "Commit to specific long-term practice schedule" }

/-- The 12-week curriculum table in declared order. -/
def programList : List (Nat × Week) :=
  [(1, week1), (2, week2), (3, week3), (4, week4), (5, week5), (6, week6),
   (7, week7), (8, week8), (9, week9), (10, week10), (11, week11), (12, week12)]

/-- `programData[week]`: lookup of a week in the curriculum table; `none`
models JS `undefined` for keys outside 1..12. -/
def programData (n : Nat) : Option Week :=
  programList.lookup n

/-! ### Session selector (`getRecommendedSessionType`). -/

/-- Days of the week, as produced by `getDayOfWeek` in the source. -/
inductive Weekday where
  | sunday | monday | tuesday | wednesday | thursday | friday | saturday
deriving DecidableEq

/-- The day-name strings of the source's `days` array. -/
def dayName : Weekday → String
  | .sunday => "Sunday"
  | .monday => "Monday"
  | .tuesday => "Tuesday"
  | .wednesday => "Wednesday"
  | .thursday => "Thursday"
  | .friday => "Friday"
  | .saturday => "Saturday"

/-- All seven weekdays. -/
def weekdayList : List Weekday :=
  [.sunday, .monday, .tuesday, .wednesday, .thursday, .friday, .saturday]

/-- The Mon/Wed/Fri token test of `getRecommendedSessionType`. -/
def isMWFKey (t : String) : Bool :=
  strIncludes t "Mon" || strIncludes t "Wed" || strIncludes t "Fri" ||
  strIncludes t "M/W/F" || strIncludes t "MWF"

/-- The Tue/Thu token test of `getRecommendedSessionType`. -/
def isTThKey (t : String) : Bool :=
  strIncludes t "Tue" || strIncludes t "Thu" ||
  strIncludes t "T/Th" || strIncludes t "TTh"

/-- The Saturday token test of `getRecommendedSessionType`. -/
def isSatKey (t : String) : Bool :=
  strIncludes t "Sat" || strIncludes t "Saturday"

/-- `getRecommendedSessionType` from the source: match the weekday class's
token set over the declared variant keys, with the first declared key as the
final fallback (`sessionTypes[0]`, `none` only for an empty mapping). -/
def getRecommendedSessionType (weekData : Week) (dayOfWeek : String) : Option String :=
  let sessionTypes := weekData.sessions.map Prod.fst
  let mwfSession :=
    if dayOfWeek == "Monday" || dayOfWeek == "Wednesday" || dayOfWeek == "Friday" then
      sessionTypes.find? isMWFKey
    else none
  match mwfSession with
  | some k => some k
  | none =>
    let tthSession :=
      if dayOfWeek == "Tuesday" || dayOfWeek == "Thursday" then
        sessionTypes.find? isTThKey
      else none
    match tthSession with
    | some k => some k
    | none =>
      let satSession :=
        if dayOfWeek == "Saturday" then sessionTypes.find? isSatKey
        else none
      match satSession with
      | some k => some k
      | none => sessionTypes.head?

/-- First key satisfying the token test, or else the first declared key. -/
def firstMatch (keys : List String) (p : String → Bool) : Option String :=
  match keys.find? p with
  | some k => some k
  | none => keys.head?

/-- Variant selection as the claim states it: on Monday/Wednesday/Friday the
first key with an MWF token, on Tuesday/Thursday the first key with a Tue/Thu
token, on Saturday the first key with a Saturday token, and in every other
case (Sunday, or no token match) the first declared key. -/
def expectedVariant (w : Week) (d : Weekday) : Option String :=
  let keys := w.sessions.map Prod.fst
  match d with
  | .monday | .wednesday | .friday => firstMatch keys isMWFKey
  | .tuesday | .thursday => firstMatch keys isTThKey
  | .saturday => firstMatch keys isSatKey
  | .sunday => keys.head?

/-- Decidable per-week, per-day check used to settle the selector claim. -/
def selectorOkAt (w : Week) (d : Weekday) : Bool :=
  (getRecommendedSessionType w (dayName d) == expectedVariant w d) &&
  (match getRecommendedSessionType w (dayName d) with
   | some k => (w.sessions.map Prod.fst).contains k
   | none => false)

/-- Every curriculum week passes the selector check on all seven weekdays. -/
theorem selector_ok_all :
    programList.all (fun nw => weekdayList.all (fun d => selectorOkAt nw.2 d)) = true := by
  decide

/-- A successful curriculum lookup comes from the table. -/
theorem lookup_mem {l : List (Nat × Week)} {n : Nat} {w : Week}
    (h : l.lookup n = some w) : (n, w) ∈ l := by
  induction l with
  | nil => simp [List.lookup] at h
  | cons p t ih =>
    obtain ⟨k, v⟩ := p
    simp only [List.lookup] at h
    split at h
    · next heq =>
      cases h
      have hk : n = k := eq_of_beq heq
      subst hk
      exact List.mem_cons_self _ _
    · exact List.mem_cons_of_mem _ (ih h)

/-- Every weekday is in `weekdayList`. -/
theorem mem_weekdayList (d : Weekday) : d ∈ weekdayList := by
  cases d <;> decide

/-- C3: for every week of `programData` and every weekday, the selector
returns exactly the variant the claim describes, and in particular a key that
is present in that week's session mapping — never `undefined`. -/
theorem getRecommendedSessionType_total (n : Nat) (w : Week)
    (hw : programData n = some w) (d : Weekday) :
    getRecommendedSessionType w (dayName d) = expectedVariant w d ∧
    ∃ k, getRecommendedSessionType w (dayName d) = some k ∧
      (w.sessions.map Prod.fst).contains k = true := by
  have hmem : (n, w) ∈ programList := lookup_mem hw
  have h1 := (List.all_eq_true.mp selector_ok_all) _ hmem
  have h2 := (List.all_eq_true.mp h1) d (mem_weekdayList d)
  unfold selectorOkAt at h2
  rw [Bool.and_eq_true] at h2
  obtain ⟨h2a, h2b⟩ := h2
  refine ⟨eq_of_beq h2a, ?_⟩
  cases hk : getRecommendedSessionType w (dayName d) with
  | none => rw [hk] at h2b; exact absurd h2b (by simp)
  | some k => exact ⟨k, rfl, by rw [hk] at h2b; exact h2b⟩

/-- Witness for the selector claim: week 1 on a Monday selects the declared
"Mon/Wed/Fri" variant. -/
theorem getRecommendedSessionType_total_witness :
    getRecommendedSessionType week1 (dayName Weekday.monday) =
      expectedVariant week1 Weekday.monday ∧
    ∃ k, getRecommendedSessionType week1 (dayName Weekday.monday) = some k ∧
      (week1.sessions.map Prod.fst).contains k = true :=
  getRecommendedSessionType_total 1 week1 rfl Weekday.monday

/-! ### Non-emptiness of every filtered curriculum session (C10). -/

/-- A list with `isEmpty = false` is not `[]`. -/
theorem ne_nil_of_isEmpty_false {α : Type} {l : List α} (h : l.isEmpty = false) :
    l ≠ [] := by
  cases l <;> simp_all [List.isEmpty]

/-- Every curriculum session keeps at least one activity under the filter,
with `skipComplex` on or off. -/
theorem filter_nonempty_all :
    programList.all (fun nw => nw.2.sessions.all (fun kv =>
      !(filterComplexActivities true kv.2.activities).isEmpty &&
      !(filterComplexActivities false kv.2.activities).isEmpty)) = true := by
  decide

/-- C10: for every week of `programData`, every declared variant and both
values of `skipComplex`, the filtered activity list is non-empty, so the
session screen's read of the adapted activity at index 0 is defined. -/
theorem filtered_activities_nonempty (n : Nat) (w : Week)
    (hw : programData n = some w) (k : String) (t : SessionTemplate)
    (hs : (k, t) ∈ w.sessions) (eb sc : Bool) :
    filterComplexActivities sc t.activities ≠ [] ∧
    ((adaptSession eb sc t).activities.get? 0).isSome = true := by
  have hmem : (n, w) ∈ programList := lookup_mem hw
  have h1 := (List.all_eq_true.mp filter_nonempty_all) _ hmem
  have h2 := (List.all_eq_true.mp h1) _ hs
  rw [Bool.and_eq_true] at h2
  obtain ⟨htrue, hfalse⟩ := h2
  have hfilter : filterComplexActivities sc t.activities ≠ [] := by
    cases sc
    · exact ne_nil_of_isEmpty_false (by simpa using hfalse)
    · exact ne_nil_of_isEmpty_false (by simpa using htrue)
  refine ⟨hfilter, ?_⟩
  obtain ⟨a, l', hcons⟩ := List.exists_cons_of_ne_nil hfilter
  simp [adaptSession, hcons]

/-- Witness for the non-emptiness claim: week 6's "Mon/Wed/Fri/Sat" session,
whose "Exergaming" activity is filtered out, still has a defined activity at
index 0 with both accessibility preferences on. -/
theorem filtered_activities_nonempty_witness :
    filterComplexActivities true week6MWFS.activities ≠ [] ∧
    ((adaptSession true true week6MWFS).activities.get? 0).isSome = true :=
  filtered_activities_nonempty 6 week6 rfl "Mon/Wed/Fri/Sat" week6MWFS
    (by decide) true true

/-! ### Notification scheduler: time model and `calculateNextNotificationTime`. -/

/-- Value of a non-empty decimal digit string. -/
def digitsToNat (cs : List Char) : Nat :=
  cs.foldl (fun a c => a * 10 + (c.toNat - 48)) 0

/-- Model of JS `Number(..)` on the reminder-time fragments: the empty string
is 0, a digit string (optionally negated) is its value, and anything else is
`NaN`, represented as `none`. -/
def jsNumber (s : String) : Option Int :=
  match s.data with
  | [] => some 0
  | '-' :: rest =>
    if rest ≠ [] ∧ rest.all Char.isDigit then some (-(digitsToNat rest : Int))
    else none
  | cs => if cs.all Char.isDigit then some ((digitsToNat cs : Int)) else none

/-- Split of a character list at a separator character, accumulator style. -/
def splitOnCharAux (sep : Char) : List Char → List Char → List (List Char)
  | [], acc => [acc.reverse]
  | c :: rest, acc =>
    if c = sep then acc.reverse :: splitOnCharAux sep rest []
    else splitOnCharAux sep rest (c :: acc)

/-- Model of the JS call `s.split(':')`. -/
def jsSplitColon (s : String) : List String :=
  (splitOnCharAux ':' s.data []).map (fun cs => ⟨cs⟩)

/-- The destructured `[hours, minutes] = reminderTime.split(':').map(Number)`:
a missing fragment is JS `undefined`, which the `isNaN` guard also rejects, so
it too is `none`. -/
def parsedHM (s : String) : Option Int × Option Int :=
  let parts := (jsSplitColon s).map jsNumber
  ((parts.get? 0).join, (parts.get? 1).join)

/-- A wall-clock date and time, standing for a JS `Date` value (month is
1-based here; the source only reads and writes whole fields). -/
structure DateTime where
  year : Int
  month : Nat
  day : Nat
  hour : Nat
  minute : Nat
  second : Nat
  ms : Nat
deriving DecidableEq

/-- Days between a civil date and 1970-01-01 (standard civil-from-days
inverse); used to give `DateTime` the epoch-linear order JS `Date`
comparisons and differences use. -/
def daysFromCivil (y : Int) (m d : Nat) : Int :=
  let y' : Int := if m ≤ 2 then y - 1 else y
  let era : Int := (if 0 ≤ y' then y' else y' - 399) / 400
  let yoe : Int := y' - era * 400
  let mp : Int := if 2 < m then (m : Int) - 3 else (m : Int) + 9
  let doy : Int := (153 * mp + 2) / 5 + (d : Int) - 1
  let doe : Int := yoe * 365 + yoe / 4 - yoe / 100 + doy
  era * 146097 + doe - 719468

/-- Epoch milliseconds of a `DateTime`, modelling JS `Date.prototype.getTime`. -/
def toMillis (t : DateTime) : Int :=
  (((daysFromCivil t.year t.month t.day * 24 + (t.hour : Int)) * 60 +
      (t.minute : Int)) * 60 + (t.second : Int)) * 1000 + (t.ms : Int)

/-- Gregorian leap-year test. -/
def isLeapYear (y : Int) : Bool :=
  y % 4 == 0 && (y % 100 != 0 || y % 400 == 0)

/-- Days in a month of a given year. -/
def daysInMonth (y : Int) (m : Nat) : Nat :=
  if m == 2 then (if isLeapYear y then 29 else 28)
  else if m == 4 || m == 6 || m == 9 || m == 11 then 30
  else 31

/-- Model of the source's `scheduledTime.setDate(scheduledTime.getDate() + 1)`:
JS `Date` normalises the day overflow across month and year boundaries. -/
def addOneDay (t : DateTime) : DateTime :=
  if t.day + 1 ≤ daysInMonth t.year t.month then { t with day := t.day + 1 }
  else if t.month + 1 ≤ 12 then { t with month := t.month + 1, day := 1 }
  else { t with year := t.year + 1, month := 1, day := 1 }

/-- Model of `scheduledTime.setHours(hours, minutes, 0, 0)` for the in-range
hour and minute values that pass the source's validation. -/
def jsSetHM (t : DateTime) (h m : Nat) : DateTime :=
  { t with hour := h, minute := m, second := 0, ms := 0 }

/-- `calculateNextNotificationTime` from the source: parse `"HH:MM"`, reject
`NaN` or out-of-range fields with `null`, build today's instant at that time,
and roll it one calendar day forward when it is not after `now`. -/
def calculateNextNotificationTime (reminderTime : String) (now : DateTime) :
    Option DateTime :=
  match parsedHM reminderTime with
  | (some hours, some minutes) =>
    if hours < 0 ∨ hours > 23 ∨ minutes < 0 ∨ minutes > 59 then none
    else
      let scheduledTime := jsSetHM now hours.toNat minutes.toNat
      if toMillis scheduledTime ≤ toMillis now then some (addOneDay scheduledTime)
      else some scheduledTime
  | _ => none

/-- C2: for every reminder-time string and instant: parse failure or an
out-of-range hour/minute yields `none`; a valid time yields today's instant at
`hour:minute:00.000` when that is strictly after `now`, and the same wall
clock time moved exactly one calendar day forward (with month/year rollover,
via `addOneDay`) when it is at or before `now`. -/
theorem calculateNextNotificationTime_spec (hhmm : String) (now : DateTime)
    (h m : Int) (hp : parsedHM hhmm = (some h, some m)) :
    (¬ (0 ≤ h ∧ h ≤ 23 ∧ 0 ≤ m ∧ m ≤ 59) →
        calculateNextNotificationTime hhmm now = none) ∧
    ((0 ≤ h ∧ h ≤ 23 ∧ 0 ≤ m ∧ m ≤ 59) →
        (toMillis now < toMillis (jsSetHM now h.toNat m.toNat) →
           calculateNextNotificationTime hhmm now =
             some (jsSetHM now h.toNat m.toNat)) ∧
        (toMillis (jsSetHM now h.toNat m.toNat) ≤ toMillis now →
           calculateNextNotificationTime hhmm now =
             some (addOneDay (jsSetHM now h.toNat m.toNat)))) ∧
    (∀ s : String, ∀ t : DateTime,
        ((parsedHM s).1 = none ∨ (parsedHM s).2 = none) →
        calculateNextNotificationTime s t = none) := by
  refine ⟨?_, ?_, ?_⟩
  · intro hinv
    simp only [calculateNextNotificationTime, hp]
    rw [if_pos (by omega)]
  · intro hval
    constructor
    · intro hlt
      simp only [calculateNextNotificationTime, hp]
      rw [if_neg (by omega), if_neg (by omega)]
    · intro hle
      simp only [calculateNextNotificationTime, hp]
      rw [if_neg (by omega), if_pos hle]
  · intro s t hnone
    rcases he : parsedHM s with ⟨o1, o2⟩
    rw [he] at hnone
    simp only [calculateNextNotificationTime, he]
    rcases o1 with _ | h' <;> rcases o2 with _ | m' <;> simp_all

/-- Witness for the scheduler-time claim at a year boundary: at 10:00 on
2025-12-31, a "09:00" reminder is scheduled for 09:00 on 2026-01-01. -/
theorem calculateNextNotificationTime_spec_witness :
    calculateNextNotificationTime "09:00" ⟨2025, 12, 31, 10, 0, 0, 0⟩ =
      some ⟨2026, 1, 1, 9, 0, 0, 0⟩ := by
  have h := ((calculateNextNotificationTime_spec "09:00" ⟨2025, 12, 31, 10, 0, 0, 0⟩
      9 0 (by decide)).2.1 (by decide)).2 (by decide)
  exact h.trans (by decide)

/-! ### Notification scheduler: the arming guard (C5). -/

/-- The arming step of `scheduleNextNotification`: compute
`timeUntilNotification = nextTime.getTime() - now.getTime()` and refuse to
schedule (returning `none`, after the source's `console.warn`) when the delta
is negative or above 25 hours; otherwise arm a timer with that delay. -/
def armNotificationTimer (fireTime now : DateTime) : Option Int :=
  let timeUntilNotification := toMillis fireTime - toMillis now
  if timeUntilNotification < 0 ∨ timeUntilNotification > 25 * 60 * 60 * 1000 then
    none
  else some timeUntilNotification

/-- `scheduleNextNotification` from the source: compute the next fire time and
arm it, propagating the `null`-time early return. -/
def scheduleNextNotification (reminderTime : String) (now : DateTime) : Option Int :=
  match calculateNextNotificationTime reminderTime now with
  | none => none
  | some nextTime => armNotificationTimer nextTime now

/-- C5: the scheduler arms a timer exactly when `0 ≤ delta ≤ 25` hours (in
milliseconds), and in particular refuses a delta of exactly 25 hours plus one
millisecond (fire time 2025-01-02 01:00:00.001 against now
2025-01-01 00:00:00.000). -/
theorem armNotificationTimer_spec (fireTime now : DateTime) :
    (armNotificationTimer fireTime now = some (toMillis fireTime - toMillis now) ↔
       0 ≤ toMillis fireTime - toMillis now ∧
         toMillis fireTime - toMillis now ≤ 25 * 60 * 60 * 1000) ∧
    (armNotificationTimer fireTime now = none ↔
       ¬ (0 ≤ toMillis fireTime - toMillis now ∧
            toMillis fireTime - toMillis now ≤ 25 * 60 * 60 * 1000)) ∧
    armNotificationTimer ⟨2025, 1, 2, 1, 0, 0, 1⟩ ⟨2025, 1, 1, 0, 0, 0, 0⟩ = none := by
  have hdef : armNotificationTimer fireTime now =
      if toMillis fireTime - toMillis now < 0 ∨
          toMillis fireTime - toMillis now > 25 * 60 * 60 * 1000 then none
      else some (toMillis fireTime - toMillis now) := rfl
  refine ⟨?_, ?_, by decide⟩ <;> rw [hdef] <;> split <;> simp <;> omega

/-! ### Activity progression state machine (`SessionScreen` / `SessionTimer`). -/

/-- The screens relevant to the session flow (`currentScreen`). -/
inductive Screen where
  | home | session | complete
deriving DecidableEq

/-- The state driving a session: `currentActivity`, the `SessionTimer`'s
`timeLeft` and `isRunning`, the current screen, and the completed-sessions
ledger (a JS `Set` kept as its insertion-ordered element list). -/
structure SessState where
  activityIndex : Nat
  timeLeft : Nat
  isRunning : Bool
  screen : Screen
  completed : List String
deriving DecidableEq

/-- The ledger key `` `week${currentWeek}-${recommendedSessionType}-${currentDate.toDateString()}` ``. -/
def mkSessionKey (week : Nat) (variant date : String) : String :=
  "week" ++ toString week ++ "-" ++ variant ++ "-" ++ date

/-- `new Set([...completedSessions, sessionKey])`: appends the key unless the
set already holds it. -/
def insertKey (completed : List String) (key : String) : List String :=
  if completed.contains key then completed else completed ++ [key]

/-- The countdown seed of `SessionTimer`: the activity's duration in seconds,
with the source's explicit 5-minute fallback for non-numeric durations
(`typeof activity.duration === 'number' ? activity.duration : 5`, times 60). -/
def seedSeconds (d : Dur) : Nat :=
  (match d with | .num n => n | .text _ => 5) * 60

/-- The duration of `session.activities[i]` (out-of-range reads do not occur
on the guarded path). -/
def nextDuration (acts : List Activity) (i : Nat) : Dur :=
  match acts.get? i with
  | some a => a.duration
  | none => .num 0

/-- `completeActivity` from `SessionScreen`, combined with `SessionTimer`'s
reseed on an activity change: before the last index, advance and reseed the
countdown, not running; on the last index, record the session key, reset the
index to 0 and move to the completion screen. -/
def completeActivity (acts : List Activity) (week : Nat) (variant date : String)
    (s : SessState) : SessState :=
  if s.activityIndex < acts.length - 1 then
    { s with activityIndex := s.activityIndex + 1,
             timeLeft := seedSeconds (nextDuration acts (s.activityIndex + 1)),
             isRunning := false }
  else
    { s with completed := insertKey s.completed (mkSessionKey week variant date),
             activityIndex := 0,
             screen := .complete }

/-- The "Skip Activity" button: it invokes `completeActivity` directly. -/
def skipActivity (acts : List Activity) (week : Nat) (variant date : String)
    (s : SessState) : SessState :=
  completeActivity acts week variant date s

/-- One second of the running countdown (`setTimeLeft(prev => ...)`): at 1 or
below, stop the clock and fire the completion sub-event; otherwise decrement. -/
def tick (acts : List Activity) (week : Nat) (variant date : String)
    (s : SessState) : SessState :=
  if s.isRunning then
    if s.timeLeft ≤ 1 then
      completeActivity acts week variant date { s with isRunning := false, timeLeft := 0 }
    else { s with timeLeft := s.timeLeft - 1 }
  else s

/-- C1: the completion sub-event — reached both by `skip` and by the countdown
hitting zero — advances a non-final activity index by one with the next
activity's adapted duration reseeded in seconds and the clock idle, and on the
final index moves to the completion screen, appends exactly one ledger record
keyed `week{N}-{variant}-{date}`, and resets the index to 0. -/
theorem completeActivity_spec (acts : List Activity) (week : Nat)
    (variant date : String) (s : SessState)
    (hidx : s.activityIndex < acts.length) :
    (∀ a, acts.get? (s.activityIndex + 1) = some a →
       completeActivity acts week variant date s =
         { s with activityIndex := s.activityIndex + 1,
                  timeLeft := seedSeconds a.duration,
                  isRunning := false }) ∧
    (s.activityIndex + 1 = acts.length →
       completeActivity acts week variant date s =
         { s with completed := insertKey s.completed (mkSessionKey week variant date),
                  activityIndex := 0, screen := .complete }) ∧
    (s.activityIndex + 1 = acts.length →
       s.completed.contains (mkSessionKey week variant date) = false →
       (completeActivity acts week variant date s).completed =
         s.completed ++ [mkSessionKey week variant date]) ∧
    skipActivity acts week variant date s = completeActivity acts week variant date s ∧
    (s.isRunning = true → s.timeLeft ≤ 1 →
       tick acts week variant date s =
         completeActivity acts week variant date
           { s with isRunning := false, timeLeft := 0 }) := by
  refine ⟨?_, ?_, ?_, rfl, ?_⟩
  · intro a ha
    have hlt := (List.get?_eq_some.mp ha).1
    have hnd : nextDuration acts (s.activityIndex + 1) = a.duration := by
      unfold nextDuration; rw [ha]
    unfold completeActivity
    rw [if_pos (by omega), hnd]
  · intro hlast
    unfold completeActivity
    rw [if_neg (by omega)]
  · intro hlast hfresh
    unfold completeActivity
    rw [if_neg (by omega)]
    show insertKey s.completed (mkSessionKey week variant date) = _
    have hnotmem : mkSessionKey week variant date ∉ s.completed := by
      simpa using hfresh
    simp [insertKey, hnotmem]
  · intro hrun hle
    unfold tick
    rw [if_pos hrun, if_pos hle]

/-- Witness for the completion claim: skipping the third of three activities
completes the session and records its ledger key. -/
theorem completeActivity_spec_witness :
    completeActivity week1MWF.activities 1 "Mon/Wed/Fri" "Mon Oct 06 2025"
        ⟨2, 42, false, .session, []⟩ =
      { activityIndex := 0, timeLeft := 42, isRunning := false,
        screen := .complete,
        completed := ["week1-Mon/Wed/Fri-Mon Oct 06 2025"] } := by
  have h := (completeActivity_spec week1MWF.activities 1 "Mon/Wed/Fri"
      "Mon Oct 06 2025" ⟨2, 42, false, .session, []⟩ (by decide)).2.1 (by decide)
  exact h.trans (by decide)

/-! ### Completion ledger keys (C7). -/

/-- String append acts as list append on the underlying characters. -/
theorem string_data_append (a b : String) : (a ++ b).data = a.data ++ b.data := rfl

/-- Two ledger keys for the same week and calendar date agree only when their
variant keys agree. -/
theorem mkSessionKey_variant_inj {week : Nat} {v v' date : String}
    (h : mkSessionKey week v date = mkSessionKey week v' date) : v = v' := by
  have hd := congrArg String.data h
  simp only [mkSessionKey, string_data_append, List.append_assoc] at hd
  have h1 := List.append_cancel_left hd
  have h2 := List.append_cancel_left h1
  have h3 := List.append_cancel_left h2
  rw [← List.append_assoc, ← List.append_assoc] at h3
  have h4 := List.append_cancel_right h3
  have h5 := List.append_cancel_right h4
  exact String.ext h5

/-- C7: completing the same variant twice on the same calendar day leaves
exactly one ledger entry (the repeated key is collapsed by the set), while two
different variants of the same week and day produce two distinct entries. -/
theorem completionLedger_key_dedup (week : Nat) (v v' date : String)
    (c : List String) (hvv : v ≠ v')
    (h1 : c.contains (mkSessionKey week v date) = false)
    (h2 : c.contains (mkSessionKey week v' date) = false) :
    insertKey (insertKey c (mkSessionKey week v date)) (mkSessionKey week v date) =
      c ++ [mkSessionKey week v date] ∧
    (insertKey (insertKey c (mkSessionKey week v date))
        (mkSessionKey week v date)).length = c.length + 1 ∧
    mkSessionKey week v date ≠ mkSessionKey week v' date ∧
    (insertKey (insertKey c (mkSessionKey week v date))
        (mkSessionKey week v' date)).length = c.length + 2 := by
  have hk : mkSessionKey week v date ≠ mkSessionKey week v' date :=
    fun he => hvv (mkSessionKey_variant_inj he)
  have hm1 : mkSessionKey week v date ∉ c := by simpa using h1
  have hm2 : mkSessionKey week v' date ∉ c := by simpa using h2
  have hins : insertKey c (mkSessionKey week v date) =
      c ++ [mkSessionKey week v date] := by
    simp [insertKey, hm1]
  have hsame : insertKey (c ++ [mkSessionKey week v date]) (mkSessionKey week v date) =
      c ++ [mkSessionKey week v date] := by
    simp [insertKey]
  have hdiff : insertKey (c ++ [mkSessionKey week v date]) (mkSessionKey week v' date) =
      (c ++ [mkSessionKey week v date]) ++ [mkSessionKey week v' date] := by
    have : mkSessionKey week v' date ∉ c ++ [mkSessionKey week v date] := by
      simp [hm2, Ne.symm hk]
    simp [insertKey, this]
  refine ⟨?_, ?_, hk, ?_⟩
  · rw [hins, hsame]
  · rw [hins, hsame]; simp
  · rw [hins, hdiff]; simp

/-- Witness for the ledger-key claim: week 1's two variants on the same
calendar day, starting from an empty ledger. -/
theorem completionLedger_key_dedup_witness :
    insertKey (insertKey [] (mkSessionKey 1 "Mon/Wed/Fri" "Mon Oct 06 2025"))
        (mkSessionKey 1 "Mon/Wed/Fri" "Mon Oct 06 2025") =
      [] ++ [mkSessionKey 1 "Mon/Wed/Fri" "Mon Oct 06 2025"] ∧
    (insertKey (insertKey [] (mkSessionKey 1 "Mon/Wed/Fri" "Mon Oct 06 2025"))
        (mkSessionKey 1 "Mon/Wed/Fri" "Mon Oct 06 2025")).length =
      List.length ([] : List String) + 1 ∧
    mkSessionKey 1 "Mon/Wed/Fri" "Mon Oct 06 2025" ≠
      mkSessionKey 1 "Tue/Thu" "Mon Oct 06 2025" ∧
    (insertKey (insertKey [] (mkSessionKey 1 "Mon/Wed/Fri" "Mon Oct 06 2025"))
        (mkSessionKey 1 "Tue/Thu" "Mon Oct 06 2025")).length =
      List.length ([] : List String) + 2 :=
  completionLedger_key_dedup 1 "Mon/Wed/Fri" "Tue/Thu" "Mon Oct 06 2025" []
    (by decide) rfl rfl

/-! ### Adaptation determinism and (partial) idempotence (C6). -/

/-- A concrete curriculum-shaped template with a numeric duration. -/
def sampleTemplate : SessionTemplate :=
  { duration := .num 20,
    activities :=
      [⟨"movement", "Moderate cardio", .num 7, "Brisk walk, cycling, jogging"⟩] }

/-- The adaptation claim fails as stated: with `extendedBreaks = true`,
re-adapting an already-adapted session adds a further 2 minutes to every
numeric duration (20 becomes 22, then 24), so adaptation is not idempotent. -/
theorem adaptSession_not_idempotent :
    adaptSession true false (adaptSession true false sampleTemplate) ≠
      adaptSession true false sampleTemplate := by decide

/-- C6 (amended): adaptation is deterministic, is idempotent whenever
`extendedBreaks` is off, and its activity-filtering component is idempotent
for every preference value. -/
theorem adaptSession_deterministic_idempotent_cases (eb sc : Bool)
    (s : SessionTemplate) :
    adaptSession eb sc s = adaptSession eb sc s ∧
    (eb = false →
       adaptSession eb sc (adaptSession eb sc s) = adaptSession eb sc s) ∧
    filterComplexActivities sc (filterComplexActivities sc s.activities) =
      filterComplexActivities sc s.activities := by
  have hfilt : ∀ l : List Activity,
      filterComplexActivities sc (filterComplexActivities sc l) =
        filterComplexActivities sc l := by
    intro l
    cases sc
    · rfl
    · have h : ∀ l' : List Activity, filterComplexActivities true l' =
          l'.filter (fun activity =>
            if hasPreserveKeyword activity then true
            else !hasComplexKeyword activity) := fun l' => rfl
      simp only [h, List.filter_filter]
      apply List.filter_congr
      intro a _
      cases hasPreserveKeyword a <;> cases hasComplexKeyword a <;> simp
  refine ⟨rfl, ?_, hfilt s.activities⟩
  rintro rfl
  have hadj : ∀ d : Dur, getAdjustedDuration false d = d := fun d => rfl
  have hmap : ∀ l : List Activity,
      l.map (fun a : Activity =>
        { type := a.type, name := a.name, duration := a.duration,
          description := a.description }) = l := by
    intro l
    have hfun : (fun a : Activity =>
        ({ type := a.type, name := a.name, duration := a.duration,
           description := a.description } : Activity)) = id := by
      funext a; rfl
    rw [hfun, List.map_id]
  unfold adaptSession
  simp only [hadj]
  simp only [hmap]
  rw [hfilt]

/-- Witness for the amended adaptation claim: with `extendedBreaks` off and
`skipComplex` on, adapting the sample template twice equals adapting it once. -/
theorem adaptSession_idempotent_witness :
    adaptSession false true (adaptSession false true sampleTemplate) =
      adaptSession false true sampleTemplate :=
  (adaptSession_deterministic_idempotent_cases false true sampleTemplate).2.1 rfl

/-! ### Notification effect timer bookkeeping (C8). -/

/-- The timers owned by the notification effect: a fresh-id counter, the
tracked `notificationTimer.current` handle, the set of armed and not yet
cancelled timeouts, and the `hasShownTestNotification` latch. -/
structure NotifSchedState where
  nextTimerId : Nat
  notificationTimer : Option Nat
  livePending : List Nat
  hasShownTestNotification : Bool
deriving DecidableEq

/-- `clearTimeout(notificationTimer.current); notificationTimer.current = null`
— the only cancellation the source ever performs. -/
def clearNotificationTimer (s : NotifSchedState) : NotifSchedState :=
  match s.notificationTimer with
  | some id => { s with livePending := s.livePending.erase id, notificationTimer := none }
  | none => s

/-- The body of the notification-scheduling effect: clear the tracked timer;
reset the latch and stop when notifications are off; stop without permission;
otherwise arm the recurring timer (when the schedule guard passes, abstracted
by `arms`) and, if the latch is unset, fire the one-off test notification
`setTimeout` — whose handle is *not* stored anywhere. -/
def notificationEffectBody (notifications granted arms : Bool)
    (s : NotifSchedState) : NotifSchedState :=
  let s0 := clearNotificationTimer s
  if !notifications then { s0 with hasShownTestNotification := false }
  else if !granted then s0
  else
    let s1 :=
      if arms then
        { s0 with notificationTimer := some s0.nextTimerId,
                  livePending := s0.livePending ++ [s0.nextTimerId],
                  nextTimerId := s0.nextTimerId + 1 }
      else s0
    if !s1.hasShownTestNotification then
      { s1 with hasShownTestNotification := true,
                livePending := s1.livePending ++ [s1.nextTimerId],
                nextTimerId := s1.nextTimerId + 1 }
    else s1

/-- The effect's cleanup function, run before every re-run and on teardown:
it clears only the tracked `notificationTimer`. -/
def notificationEffectCleanup (s : NotifSchedState) : NotifSchedState :=
  clearNotificationTimer s

/-- A preference-change re-run of the effect: previous cleanup, then body. -/
def notificationEffectRerun (notifications granted arms : Bool)
    (s : NotifSchedState) : NotifSchedState :=
  notificationEffectBody notifications granted arms (notificationEffectCleanup s)

/-- C8 fails on the code: after enabling notifications (permission granted,
latch unset) the effect leaves two live timers — the tracked recurring one and
the untracked test-notification timeout — and after a further
preference-change re-run the test timeout armed before the change is still
live, because no cleanup path ever stores or clears its handle. -/
theorem notificationEffect_test_timer_leak :
    (notificationEffectRerun true true true ⟨0, none, [], false⟩).livePending.length
        = 2 ∧
    (notificationEffectRerun true true true ⟨0, none, [], false⟩).notificationTimer
        ≠ some 1 ∧
    1 ∈ (notificationEffectRerun true true true ⟨0, none, [], false⟩).livePending ∧
    1 ∈ (notificationEffectRerun true true true
          (notificationEffectRerun true true true ⟨0, none, [], false⟩)).livePending := by
  decide
